import Mathlib

/-!
Shallow embedding of `src/app.py`, a Flask webhook service that relays
Shopify order comments into Slack threads.

Modelling conventions:
* HTTP interactions are represented by an `Env` record holding the responses
  the two upstream services (Slack history, Shopify GraphQL) would return for
  this invocation; the outbound calls the handler makes are recorded in an
  `Effect` trace.
* Python dicts `order_threads` / set `processed_comments` are the `State`
  record; dict assignment is modelled by cons + first-match lookup.
* `hashlib.md5(x).hexdigest()` is modelled as an injective function of its
  input string, i.e. the dedup key is the concatenated string itself
  (md5 collisions are below the level of this embedding); note the source
  concatenates `message` and `createdAt` without a separator, and the model
  preserves that.
* Python string truthiness (`or`, `if not x`) is modelled explicitly: an
  empty string is falsy.
-/

namespace CommentReply

/-- ASCII word character in the sense of Python re's `\w` / `\b`. -/
def isWordChar (c : Char) : Bool :=
  ('a' ≤ c && c ≤ 'z') || ('A' ≤ c && c ≤ 'Z') || ('0' ≤ c && c ≤ '9') || c = '_'

/-- ASCII digit, Python re `\d`. -/
def isDigitChar (c : Char) : Bool := '0' ≤ c && c ≤ '9'

/-- ASCII whitespace, Python re `\s`. -/
def isSpaceChar (c : Char) : Bool :=
  c = ' ' || c = '\t' || c = '\n' || c = '\r' || c = '\x0b' || c = '\x0c'

/-- Try to match the body of `ORDER_REGEX = r"\bST\.order\s+#(\d+)\b"` at the
head of `cs` (the leading word boundary is checked by the caller), returning
the captured digit run. The trailing `\b` after a greedy `\d+` succeeds iff
the maximal digit run is nonempty and the next character is not a word
character (shorter backtracked runs always end between two digits). -/
def matchFrom (cs : List Char) : Option (List Char) :=
  match cs with
  | 'S' :: 'T' :: '.' :: 'o' :: 'r' :: 'd' :: 'e' :: 'r' :: rest =>
    match rest with
    | c :: rest2 =>
      if isSpaceChar c then
        match rest2.dropWhile isSpaceChar with
        | '#' :: rest4 =>
          let digits := rest4.takeWhile isDigitChar
          if digits.isEmpty then none
          else
            match rest4.dropWhile isDigitChar with
            | [] => some digits
            | d :: _ => if isWordChar d then none else some digits
        | _ => none
      else none
    | [] => none
  | _ => none

/-- Leftmost-match scan of `ORDER_REGEX.search`: `prev` is the character just
before the current position (none at the start of the string). The pattern
starts with the word character `S`, so its leading `\b` holds iff `prev` is
absent or not a word character. -/
def searchAux (prev : Option Char) : List Char → Option (List Char)
  | [] => none
  | c :: rest =>
    let boundaryOk := match prev with
      | none => true
      | some p => !isWordChar p
    if boundaryOk then
      match matchFrom (c :: rest) with
      | some d => some d
      | none => searchAux (some c) rest
    else searchAux (some c) rest

/-- The digit capture of the first `ORDER_REGEX` match in `text`
(`ORDER_REGEX.search(text).group(1)`), or none when there is no match. -/
def orderRegexSearch (text : String) : Option String :=
  (searchAux none text.data).map (fun ds => String.mk ds)

/-- The per-message test in `find_thread_ts`:
`match = ORDER_REGEX.search(text); match and match.group(1) == order_number`. -/
def markerHit (text orderNumber : String) : Bool :=
  orderRegexSearch text == some orderNumber

/-- One message of the Slack `conversations.history` response. -/
structure SlackMsg where
  text : String
  ts : String
deriving DecidableEq, Repr

/-- A node of the Shopify GraphQL events response. Nodes whose `__typename`
is `"OrderCommentEvent"` carry the inline-fragment fields
(`message`, `createdAt`, `author.name`); for other nodes those fields are
irrelevant to the code, which only reads the tag. -/
structure EventNode where
  typename : String
  message : String
  createdAt : String
  authorName : String
deriving DecidableEq, Repr

/-- Outcome of the Shopify GraphQL POST for one invocation:
`invalidJson` is a body `r.json()` fails to parse; otherwise the parsed
payload with its `errors` presence, optional `data`, optional `order`
(inner `none` is a null order) and the `events.edges` list. A falsy-but-
present `data` (empty dict) behaves identically to an absent one and is
folded into the outer `none`. -/
inductive FetchResponse where
  | invalidJson
  | json (hasErrors : Bool) (data : Option (Option (List EventNode)))
deriving DecidableEq, Repr

/-- Responses the two upstream services return during one webhook
invocation. `historyOk` is `r.ok` of the Slack history GET. -/
structure Env where
  historyOk : Bool
  messages : List SlackMsg
  shopify : FetchResponse
deriving DecidableEq, Repr

/-- The two module-level in-memory stores, `order_threads` (dict) and
`processed_comments` (set of md5 dedup keys, modelled by their preimages). -/
structure State where
  order_threads : List (String × String)
  processed : List String
deriving DecidableEq, Repr

/-- Outbound calls the handler performs, in order. -/
inductive Effect where
  | historyScan
  | commentFetch (orderId : String)
  | chatPost (thread_ts : String) (text : String)
deriving DecidableEq, Repr

/-- True for the Slack `chat.postMessage` effect. -/
def isPost : Effect → Bool
  | .chatPost _ _ => true
  | _ => false

/-- Python `str(...)` applied to an optional JSON field: an absent field is
`None` and stringifies to `"None"`. -/
def pyStr : Option String → String
  | some s => s
  | none => "None"

/-- Embedding of `find_thread_ts` (src/app.py lines 28-49): on a failed
history call return `None`; otherwise the `ts` of the first message whose
first marker capture equals `order_number`. -/
def find_thread_ts (env : Env) (orderNumber : String) : Option String :=
  if env.historyOk then
    (env.messages.find? (fun m => markerHit m.text orderNumber)).map (fun m => m.ts)
  else none

/-- Embedding of `fetch_latest_comment` (src/app.py lines 78-147): every
failure shape (unparseable body, GraphQL `errors`, missing/falsy `data`,
missing order) and the absence of a comment-kind node all yield `None`;
otherwise the first node tagged `OrderCommentEvent` in the edges list. The
explicit `if not events` check of the source is behaviourally the same as
running the loop on an empty list. -/
def fetch_latest_comment : FetchResponse → Option EventNode
  | .invalidJson => none
  | .json true _ => none
  | .json false none => none
  | .json false (some none) => none
  | .json false (some (some events)) =>
      events.find? (fun n => n.typename == "OrderCommentEvent")

/-- The `order_threads.get(order_number) or find_thread_ts(order_number)`
step (line 165), with Python `or` truthiness: a cached empty string falls
through to the history scan. The second component records whether the
history GET was issued. -/
def resolve_thread (env : Env) (s : State) (n : String) :
    Option String × List Effect :=
  match s.order_threads.lookup n with
  | some t =>
      if t = "" then (find_thread_ts env n, [Effect.historyScan])
      else (some t, [])
  | none => (find_thread_ts env n, [Effect.historyScan])

/-- The dedup key of lines 178-180: md5 of `message ++ createdAt`, with md5
modelled as injective (the key is the concatenation itself). -/
def dedup_key (c : EventNode) : String := c.message ++ c.createdAt

/-- The Slack reply text of lines 189-192. -/
def reply_text (c : EventNode) : String :=
  "💬 *" ++ c.authorName ++ "*\n>" ++ c.message

/-- The tail of the handler once a truthy `thread_ts` `t` is in hand
(src/app.py lines 170-194): store the thread, fetch the latest comment,
dedup, and reply. -/
def after_thread (env : Env) (s : State) (p : Option String)
    (orderNumber t : String) (effs : List Effect) :
    (String × Nat) × State × List Effect :=
  let s1 : State := { s with order_threads := (orderNumber, t) :: s.order_threads }
  let effs1 := effs ++ [Effect.commentFetch (pyStr p)]
  match fetch_latest_comment env.shopify with
  | none => (("No comment", 200), s1, effs1)
  | some c =>
    if dedup_key c ∈ s1.processed then (("Duplicate", 200), s1, effs1)
    else
      (("OK", 200), { s1 with processed := dedup_key c :: s1.processed },
        effs1 ++ [Effect.chatPost t (reply_text c)])

/-- Embedding of the webhook handler `order_updated`
(src/app.py lines 153-194). The payload fields are optional;
`str(data.get("order_number"))` turns an absent one into `"None"`, and an
absent `id` is interpolated as `"None"` into the GraphQL order gid.
Returns the `(body, status)` response, the updated stores, and the trace of
outbound calls. -/
def order_updated (env : Env) (s : State)
    (order_number_field order_id_field : Option String) :
    (String × Nat) × State × List Effect :=
  let order_number := pyStr order_number_field
  let rt := resolve_thread env s order_number
  match rt.1 with
  | none => (("No Slack thread", 200), s, rt.2)
  | some t =>
    if t = "" then (("No Slack thread", 200), s, rt.2)
    else after_thread env s order_id_field order_number t rt.2

/-- A Shopify event node tagged as a timeline comment, author fixed to `A`. -/
def commentNode (m v : String) : EventNode := ⟨"OrderCommentEvent", m, v, "A"⟩

/-- A well-formed feed response whose only event is one comment. -/
def okFeed (m v : String) : FetchResponse := .json false (some (some [commentNode m v]))

/-- An environment with a healthy Slack history call. -/
def envWith (msgs : List SlackMsg) (fr : FetchResponse) : Env := ⟨true, msgs, fr⟩

/-- The Slack message that anchors order 1029 at thread `T1`. -/
def msgT1 : SlackMsg := ⟨"ST.order #1029", "T1"⟩

/-- Empty initial stores. -/
def s0 : State := ⟨[], []⟩

/-- First invocation for order 1029: feed holds comment (hello, v1). -/
def runHelloV1 : (String × Nat) × State × List Effect :=
  order_updated (envWith [msgT1] (okFeed "hello" "v1")) s0 (some "1029") (some "gid-1")

/-- Second invocation for order 1029: a different message with the same
`createdAt` value v1. -/
def runWorldV1 : (String × Nat) × State × List Effect :=
  order_updated (envWith [msgT1] (okFeed "world" "v1")) runHelloV1.2.1 (some "1029") (some "gid-1")

/-- Invocation delivering a newer comment (later, v2) after (hello, v1). -/
def runLaterV2 : (String × Nat) × State × List Effect :=
  order_updated (envWith [msgT1] (okFeed "later" "v2")) runHelloV1.2.1 (some "1029") (some "gid-1")

/-- Invocation where the feed returns the old (hello, v1) comment again
after (later, v2) was delivered. -/
def runHelloV1Again : (String × Nat) × State × List Effect :=
  order_updated (envWith [msgT1] (okFeed "hello" "v1")) runLaterV2.2.1 (some "1029") (some "gid-1")

/-- A repeat of the first invocation, same order, same feed content. -/
def runRepeat : (String × Nat) × State × List Effect :=
  order_updated (envWith [msgT1] (okFeed "hello" "v1")) runHelloV1.2.1 (some "1029") (some "gid-1")

/-- The resolve step never posts to chat. -/
lemma resolve_thread_no_post (env : Env) (s : State) (n : String) :
    (resolve_thread env s n).2.any isPost = false := by
  unfold resolve_thread
  split
  · split
    · rfl
    · rfl
  · rfl

/-- When the history scan finds no thread, the handler stops with
`"No Slack thread"` and leaves the stores untouched. -/
lemma order_updated_noresolve (env : Env) (s : State) (onf oif : Option String)
    (hres : (resolve_thread env s (pyStr onf)).1 = none) :
    order_updated env s onf oif =
      (("No Slack thread", 200), s, (resolve_thread env s (pyStr onf)).2) := by
  simp only [order_updated]
  rw [hres]

/-- A resolved but falsy (empty) thread timestamp is treated as not found. -/
lemma order_updated_empty_ts (env : Env) (s : State) (onf oif : Option String)
    (hres : (resolve_thread env s (pyStr onf)).1 = some "") :
    order_updated env s onf oif =
      (("No Slack thread", 200), s, (resolve_thread env s (pyStr onf)).2) := by
  simp only [order_updated]
  rw [hres]
  simp

/-- With a truthy resolved thread the handler runs its tail. -/
lemma order_updated_resolved (env : Env) (s : State) (onf oif : Option String) (t : String)
    (hres : (resolve_thread env s (pyStr onf)).1 = some t) (ht : ¬t = "") :
    order_updated env s onf oif =
      after_thread env s oif (pyStr onf) t (resolve_thread env s (pyStr onf)).2 := by
  simp only [order_updated]
  rw [hres]
  simp [ht]

/-- The handler tail always issues the Shopify fetch. -/
lemma after_thread_fetch_mem (env : Env) (s : State) (p : Option String)
    (n t : String) (effs : List Effect) :
    Effect.commentFetch (pyStr p) ∈ (after_thread env s p n t effs).2.2 := by
  unfold after_thread
  split
  · simp
  · dsimp only
    split
    · simp
    · simp

/-- When the fetched comment's dedup key is already recorded, the tail
answers `"Duplicate"` without posting. -/
lemma after_thread_dup (env : Env) (s : State) (p : Option String)
    (n t : String) (effs : List Effect) (c : EventNode)
    (hc : fetch_latest_comment env.shopify = some c)
    (hdup : dedup_key c ∈ s.processed) :
    after_thread env s p n t effs =
      (("Duplicate", 200),
        { s with order_threads := (n, t) :: s.order_threads },
        effs ++ [Effect.commentFetch (pyStr p)]) := by
  unfold after_thread
  rw [hc]
  simp [hdup]

/-- The handler's response is one of the four source tokens, always 200. -/
lemma token_cases (env : Env) (s : State) (onf oif : Option String) :
    (order_updated env s onf oif).1 = ("No Slack thread", 200) ∨
    (order_updated env s onf oif).1 = ("No comment", 200) ∨
    (order_updated env s onf oif).1 = ("Duplicate", 200) ∨
    (order_updated env s onf oif).1 = ("OK", 200) := by
  rcases hr : (resolve_thread env s (pyStr onf)).1 with _ | t
  · rw [order_updated_noresolve env s onf oif hr]
    left; rfl
  · by_cases ht : t = ""
    · subst ht
      rw [order_updated_empty_ts env s onf oif hr]
      left; rfl
    · rw [order_updated_resolved env s onf oif t hr ht]
      unfold after_thread
      split
      · right; left; rfl
      · dsimp only
        split
        · right; right; left; rfl
        · right; right; right; rfl

/-- Effects of the resolve step are part of the invocation's effect trace. -/
lemma mem_effects_of_mem_resolve (env : Env) (s : State) (onf oif : Option String)
    (e : Effect) (he : e ∈ (resolve_thread env s (pyStr onf)).2) :
    e ∈ (order_updated env s onf oif).2.2 := by
  rcases hr : (resolve_thread env s (pyStr onf)).1 with _ | t
  · rw [order_updated_noresolve env s onf oif hr]
    exact he
  · by_cases ht : t = ""
    · subst ht
      rw [order_updated_empty_ts env s onf oif hr]
      exact he
    · rw [order_updated_resolved env s onf oif t hr ht]
      unfold after_thread
      split
      · simp [he]
      · dsimp only
        split
        · simp [he]
        · simp [he]

/-- A comment whose dedup key is already recorded is never re-posted, and
its record survives the invocation. -/
lemma dup_suppressed (env : Env) (s : State) (onf oif : Option String) (c : EventNode)
    (hc : fetch_latest_comment env.shopify = some c)
    (hdup : dedup_key c ∈ s.processed) :
    (order_updated env s onf oif).2.2.any isPost = false ∧
    dedup_key c ∈ (order_updated env s onf oif).2.1.processed := by
  rcases hr : (resolve_thread env s (pyStr onf)).1 with _ | t
  · rw [order_updated_noresolve env s onf oif hr]
    exact ⟨resolve_thread_no_post env s (pyStr onf), hdup⟩
  · by_cases ht : t = ""
    · subst ht
      rw [order_updated_empty_ts env s onf oif hr]
      exact ⟨resolve_thread_no_post env s (pyStr onf), hdup⟩
    · rw [order_updated_resolved env s onf oif t hr ht,
        after_thread_dup env s oif (pyStr onf) t _ c hc hdup]
      refine ⟨?_, by simpa using hdup⟩
      simp [List.any_append, resolve_thread_no_post, isPost]

/-- An `"OK"` response means the fetched comment was recorded and posted. -/
lemma ok_means_delivered (env : Env) (s : State) (onf oif : Option String) (c : EventNode)
    (hc : fetch_latest_comment env.shopify = some c)
    (hok : (order_updated env s onf oif).1.1 = "OK") :
    dedup_key c ∈ (order_updated env s onf oif).2.1.processed ∧
    (order_updated env s onf oif).2.2.any isPost = true := by
  rcases hr : (resolve_thread env s (pyStr onf)).1 with _ | t
  · rw [order_updated_noresolve env s onf oif hr] at hok
    simp at hok
  · by_cases ht : t = ""
    · subst ht
      rw [order_updated_empty_ts env s onf oif hr] at hok
      simp at hok
    · rw [order_updated_resolved env s onf oif t hr ht] at hok ⊢
      unfold after_thread at hok ⊢
      rw [hc] at hok ⊢
      dsimp only at hok ⊢
      by_cases hd : dedup_key c ∈ s.processed
      · simp [hd] at hok
      · simp only [hd, ite_false]
        constructor
        · simp
        · simp [List.any_append, isPost]

/-- C1 (counterexample): two invocations for the same order 1029 obtain
fetched comments with the same `occurredAt` value `v1` (but different
message texts), and BOTH result in a chat post, refuting delivery at most
once per distinct `occurredAt` per OrderKey; the dedup key is the
message/createdAt pair, not the per-order `occurredAt` value. -/
theorem same_occurredAt_twice_posted :
    (fetch_latest_comment (okFeed "hello" "v1")).map EventNode.createdAt = some "v1" ∧
    (fetch_latest_comment (okFeed "world" "v1")).map EventNode.createdAt = some "v1" ∧
    runHelloV1.1.1 = "OK" ∧ runHelloV1.2.2.any isPost = true ∧
    runWorldV1.1.1 = "OK" ∧ runWorldV1.2.2.any isPost = true := by
  decide

/-- C1 (amended): a fetched comment whose dedup key (the concatenation of
its message and `createdAt`, i.e. the md5 preimage) is already in the
global processed set is never posted again, and the record survives the
invocation: delivery happens at most once per distinct (message, createdAt)
pair, globally rather than per OrderKey. -/
theorem dedup_key_suppresses_redelivery (env : Env) (s : State)
    (onf oif : Option String) (c : EventNode)
    (hc : fetch_latest_comment env.shopify = some c)
    (hdup : dedup_key c ∈ s.processed) :
    (order_updated env s onf oif).2.2.any isPost = false ∧
    dedup_key c ∈ (order_updated env s onf oif).2.1.processed :=
  dup_suppressed env s onf oif c hc hdup

/-- Witness for C1 (amended) at a concrete already-processed comment. -/
theorem dedup_key_suppresses_redelivery_witness :
    (order_updated (envWith [msgT1] (okFeed "hello" "v1"))
        ⟨[], [dedup_key (commentNode "hello" "v1")]⟩
        (some "1029") (some "gid-1")).2.2.any isPost = false ∧
    dedup_key (commentNode "hello" "v1") ∈
      (order_updated (envWith [msgT1] (okFeed "hello" "v1"))
        ⟨[], [dedup_key (commentNode "hello" "v1")]⟩
        (some "1029") (some "gid-1")).2.1.processed :=
  dedup_key_suppresses_redelivery
    (envWith [msgT1] (okFeed "hello" "v1"))
    ⟨[], [dedup_key (commentNode "hello" "v1")]⟩
    (some "1029") (some "gid-1")
    (commentNode "hello" "v1") (by decide) (by decide)

/-- C2 (counterexample): a webhook whose order has no Slack thread is
answered `("No Slack thread", 200)`, a token outside the spec's set
`{"Invalid payload", "Already running", "OK"}`. -/
theorem response_token_outside_spec_set :
    (order_updated (envWith [] FetchResponse.invalidJson) s0
        (some "1029") (some "gid-1")).1 = ("No Slack thread", 200) ∧
    ("No Slack thread" : String) ∉
      (["Invalid payload", "Already running", "OK"] : List String) := by
  decide

/-- C2 (amended): the handler always answers HTTP 200 and its body is one
of the four tokens the source actually returns: `"No Slack thread"`,
`"No comment"`, `"Duplicate"`, `"OK"`. -/
theorem response_always_200_with_code_tokens (env : Env) (s : State)
    (onf oif : Option String) :
    (order_updated env s onf oif).1.2 = 200 ∧
    (order_updated env s onf oif).1.1 ∈
      (["No Slack thread", "No comment", "Duplicate", "OK"] : List String) := by
  rcases token_cases env s onf oif with h | h | h | h <;> rw [h] <;> simp

/-- C3 (counterexample): a payload missing both identifier fields still
triggers a Slack history scan (no admission rejection), and a payload
missing only the order id still triggers a comment fetch with the literal
id `"None"` and even a chat post. -/
theorem missing_fields_still_scan_and_fetch :
    Effect.historyScan ∈
      (order_updated (envWith [] FetchResponse.invalidJson) s0 none none).2.2 ∧
    (order_updated (envWith [] FetchResponse.invalidJson) s0 none none).1.1 =
      "No Slack thread" ∧
    Effect.commentFetch "None" ∈
      (order_updated (envWith [msgT1] (okFeed "hello" "v1")) s0
        (some "1029") none).2.2 ∧
    (order_updated (envWith [msgT1] (okFeed "hello" "v1")) s0
        (some "1029") none).2.2.any isPost = true := by
  decide

/-- C3 (amended): the handler performs no admission validation. A payload
missing `order_number` is processed under the literal key `"None"` and,
absent a cached thread for that key, still causes a chat-history scan; a
payload missing `id`, once a thread resolves, still causes a comment fetch
for the literal order id `"None"`. -/
theorem no_admission_validation (env : Env) (s : State)
    (onf oif : Option String) (t : String) :
    (onf = none → s.order_threads.lookup "None" = none →
      Effect.historyScan ∈ (order_updated env s onf oif).2.2) ∧
    (oif = none → (resolve_thread env s (pyStr onf)).1 = some t → ¬t = "" →
      Effect.commentFetch "None" ∈ (order_updated env s onf oif).2.2) := by
  constructor
  · intro hn hlook
    subst hn
    apply mem_effects_of_mem_resolve
    unfold resolve_thread
    rw [show pyStr none = "None" from rfl, hlook]
    simp
  · intro hi hres ht
    subst hi
    rw [order_updated_resolved env s onf none t hres ht]
    exact after_thread_fetch_mem env s none (pyStr onf) t _

/-- Witness for C3 (amended) at concrete payloads with missing fields. -/
theorem no_admission_validation_witness :
    Effect.historyScan ∈
      (order_updated (envWith [] FetchResponse.invalidJson) s0 none (some "gid-1")).2.2 ∧
    Effect.commentFetch "None" ∈
      (order_updated (envWith [msgT1] (okFeed "hello" "v1")) s0
        (some "1029") none).2.2 :=
  ⟨(no_admission_validation (envWith [] FetchResponse.invalidJson) s0
      none (some "gid-1") "T1").1 rfl rfl,
   (no_admission_validation (envWith [msgT1] (okFeed "hello" "v1")) s0
      (some "1029") none "T1").2 rfl (by decide) (by decide)⟩

/-- C4 (counterexample): marker matching is NOT case-insensitive: the
lowercase marker `"st.order #1234"` does not match order 1234 while the
canonical `"ST.order #1234"` does, because `ORDER_REGEX` is compiled
without `re.IGNORECASE`. -/
theorem lowercase_marker_not_matched :
    markerHit "st.order #1234" "1234" = false ∧
    markerHit "ST.order #1234" "1234" = true := by
  decide

/-- C4 (amended): marker matching is case-sensitive. The thread resolver
skips a message carrying only the lowercase marker and resolves to a later
message with the canonical casing; with only the lowercase marker present
it finds no thread at all. -/
theorem marker_matching_case_sensitive :
    find_thread_ts
      ⟨true, [⟨"st.order #1234", "T1"⟩, ⟨"ST.order #1234", "T2"⟩],
        FetchResponse.invalidJson⟩ "1234" = some "T2" ∧
    find_thread_ts
      ⟨true, [⟨"st.order #1234", "T1"⟩], FetchResponse.invalidJson⟩ "1234" =
      none := by
  decide

/-- C5: marker matching is word-bounded exact numeric match, not substring
match: `"ST.order #1234 great"` matches order 1234, `"ST.order #12345"`
does not, and in general a message matches an order key only when the
captured digit run of its first marker equals the key as a whole string. -/
theorem marker_exact_numeric_match :
    markerHit "ST.order #1234 great" "1234" = true ∧
    markerHit "ST.order #12345" "1234" = false ∧
    ∀ text ord : String, markerHit text ord = true →
      orderRegexSearch text = some ord := by
  refine ⟨by decide, by decide, ?_⟩
  intro text ord h
  simpa [markerHit] using h

/-- Witness for C5 applying the exactness direction at a concrete input. -/
theorem marker_exact_numeric_match_witness :
    orderRegexSearch "ST.order #55 ok" = some "55" :=
  marker_exact_numeric_match.2.2 "ST.order #55 ok" "55" (by decide)

/-- C6 (counterexample): after delivering the comment (hello, v1) and then
(later, v2), a fetch returning (hello, v1) again is answered
`"Duplicate"` with no chat post: the older comment is NOT treated as new
again, refuting last-write-wins tracking. -/
theorem old_comment_after_new_not_redelivered :
    runHelloV1.1.1 = "OK" ∧ runLaterV2.1.1 = "OK" ∧
    runHelloV1Again.1.1 = "Duplicate" ∧
    runHelloV1Again.2.2.any isPost = false := by
  decide

/-- C6 (amended): deduplication keeps a grow-only global set of delivered
(message, createdAt) keys rather than only the most recent marker: after
the v1 and v2 deliveries both keys are still recorded, so the re-fetched
v1 comment is recognized as a duplicate. -/
theorem dedup_set_grow_only_scenario :
    dedup_key (commentNode "hello" "v1") ∈ runHelloV1Again.2.1.processed ∧
    dedup_key (commentNode "later" "v2") ∈ runHelloV1Again.2.1.processed ∧
    runHelloV1Again.1.1 = "Duplicate" := by
  decide

/-- C7: `fetch_latest_comment` is total and folds every failure shape into
`none`: an unparseable body, a GraphQL `errors` payload, a missing `data`
object, a null order, and an events list without any comment-kind node all
yield `none`. -/
theorem fetch_latest_comment_none_on_failures
    (d : Option (Option (List EventNode))) (events : List EventNode)
    (h : ∀ e ∈ events, e.typename ≠ "OrderCommentEvent") :
    fetch_latest_comment .invalidJson = none ∧
    fetch_latest_comment (.json true d) = none ∧
    fetch_latest_comment (.json false none) = none ∧
    fetch_latest_comment (.json false (some none)) = none ∧
    fetch_latest_comment (.json false (some (some events))) = none := by
  refine ⟨rfl, rfl, rfl, rfl, ?_⟩
  simp only [fetch_latest_comment, List.find?_eq_none]
  intro e he
  simpa using h e he

/-- Witness for C7 at a feed holding only a non-comment event. -/
theorem fetch_latest_comment_none_on_failures_witness :
    fetch_latest_comment .invalidJson = none ∧
    fetch_latest_comment (.json true none) = none ∧
    fetch_latest_comment (.json false none) = none ∧
    fetch_latest_comment (.json false (some none)) = none ∧
    fetch_latest_comment
      (.json false (some (some [⟨"FulfillmentEvent", "", "", ""⟩]))) = none :=
  fetch_latest_comment_none_on_failures none
    [⟨"FulfillmentEvent", "", "", ""⟩] (by decide)

/-- C8: `fetch_latest_comment` filters the heterogeneous event stream by
the `__typename` tag and returns the first comment-kind node in feed
order, ignoring every non-comment event before it. -/
theorem fetch_latest_comment_first_comment_event
    (pre post : List EventNode) (c : EventNode)
    (hpre : ∀ e ∈ pre, e.typename ≠ "OrderCommentEvent")
    (hc : c.typename = "OrderCommentEvent") :
    fetch_latest_comment (.json false (some (some (pre ++ c :: post)))) =
      some c := by
  unfold fetch_latest_comment
  induction pre with
  | nil =>
    simp [List.find?, hc]
  | cons a as ih =>
    have ha : (a.typename == "OrderCommentEvent") = false := by
      simpa using hpre a (List.mem_cons_self a as)
    simp only [List.cons_append, List.find?, ha]
    exact ih (fun e he => hpre e (List.mem_cons_of_mem a he))

/-- Witness for C8: the comment node is returned past a non-comment one,
ignoring a further comment after it. -/
theorem fetch_latest_comment_first_comment_event_witness :
    fetch_latest_comment
      (.json false (some (some
        ([⟨"FulfillmentEvent", "", "", ""⟩] ++
          commentNode "hi" "v1" :: [commentNode "old" "v0"])))) =
      some (commentNode "hi" "v1") :=
  fetch_latest_comment_first_comment_event
    [⟨"FulfillmentEvent", "", "", ""⟩] [commentNode "old" "v0"]
    (commentNode "hi" "v1") (by decide) (by decide)

/-- C9 (counterexample): a second webhook for order 1029, arriving while
(in fact after) a first one for the same order was processed, is NOT
rejected without starting new work: it performs the Shopify comment fetch
and its response is not `"Already running"` (no such token exists). -/
theorem second_webhook_not_rejected :
    Effect.commentFetch "gid-1" ∈ runRepeat.2.2 ∧
    runRepeat.1.1 ≠ "Already running" := by
  decide

/-- C9 (amended): there is no admission gate. Every invocation whose
thread resolves performs a comment fetch, regardless of how many earlier
invocations for the same order already ran, and no invocation is ever
answered `"Already running"`. -/
theorem no_admission_gate (env : Env) (s : State)
    (onf oif : Option String) (t : String)
    (hres : (resolve_thread env s (pyStr onf)).1 = some t) (ht : ¬t = "") :
    Effect.commentFetch (pyStr oif) ∈ (order_updated env s onf oif).2.2 ∧
    (order_updated env s onf oif).1.1 ≠ "Already running" := by
  constructor
  · rw [order_updated_resolved env s onf oif t hres ht]
    exact after_thread_fetch_mem env s oif (pyStr onf) t _
  · rcases token_cases env s onf oif with h | h | h | h <;> simp [h]

/-- Witness for C9 (amended) on the state left by a completed first
invocation for the same order. -/
theorem no_admission_gate_witness :
    Effect.commentFetch "gid-1" ∈
      (order_updated (envWith [msgT1] (okFeed "hello" "v1"))
        runHelloV1.2.1 (some "1029") (some "gid-1")).2.2 ∧
    (order_updated (envWith [msgT1] (okFeed "hello" "v1"))
        runHelloV1.2.1 (some "1029") (some "gid-1")).1.1 ≠ "Already running" :=
  no_admission_gate (envWith [msgT1] (okFeed "hello" "v1"))
    runHelloV1.2.1 (some "1029") (some "gid-1") "T1" (by decide) (by decide)

/-- C10: deduplication is global across orders. If a first webhook for one
order delivers a comment, then a second webhook for a DIFFERENT order
whose fetched comment has the same message and `createdAt` is answered
`"Duplicate"` with no chat post, and the dedup record is still present
afterwards (it is never removed). -/
theorem dedup_global_across_orders
    (env1 env2 : Env) (s : State) (onf1 oif1 onf2 oif2 : Option String)
    (c1 c2 : EventNode) (t : String)
    (_horder : pyStr onf1 ≠ pyStr onf2)
    (hc1 : fetch_latest_comment env1.shopify = some c1)
    (hc2 : fetch_latest_comment env2.shopify = some c2)
    (hmsg : c2.message = c1.message) (hts : c2.createdAt = c1.createdAt)
    (hok : (order_updated env1 s onf1 oif1).1.1 = "OK")
    (hres : (resolve_thread env2 (order_updated env1 s onf1 oif1).2.1
      (pyStr onf2)).1 = some t) (ht : ¬t = "") :
    (order_updated env1 s onf1 oif1).2.2.any isPost = true ∧
    (order_updated env2 (order_updated env1 s onf1 oif1).2.1 onf2 oif2).1.1 =
      "Duplicate" ∧
    (order_updated env2 (order_updated env1 s onf1 oif1).2.1 onf2 oif2).2.2.any
      isPost = false ∧
    dedup_key c1 ∈
      (order_updated env2 (order_updated env1 s onf1 oif1).2.1 onf2
        oif2).2.1.processed := by
  have h1 := ok_means_delivered env1 s onf1 oif1 c1 hc1 hok
  have hkey : dedup_key c2 = dedup_key c1 := by
    unfold dedup_key
    rw [hmsg, hts]
  have hdup : dedup_key c2 ∈ ((order_updated env1 s onf1 oif1).2.1).processed := by
    rw [hkey]
    exact h1.1
  have h2 := dup_suppressed env2 (order_updated env1 s onf1 oif1).2.1 onf2 oif2
    c2 hc2 hdup
  refine ⟨h1.2, ?_, h2.1, hkey ▸ h2.2⟩
  rw [order_updated_resolved env2 (order_updated env1 s onf1 oif1).2.1 onf2 oif2
    t hres ht,
    after_thread_dup env2 (order_updated env1 s onf1 oif1).2.1 oif2
      (pyStr onf2) t _ c2 hc2 hdup]

/-- Witness for C10: order 2040's comment, textually identical to the one
already delivered for order 1029, is reported as a duplicate. -/
theorem dedup_global_across_orders_witness :
    (order_updated (envWith [msgT1] (okFeed "hello" "v1")) s0
      (some "1029") (some "gid-1")).2.2.any isPost = true ∧
    (order_updated (envWith [⟨"ST.order #2040", "T2"⟩] (okFeed "hello" "v1"))
      (order_updated (envWith [msgT1] (okFeed "hello" "v1")) s0
        (some "1029") (some "gid-1")).2.1
      (some "2040") (some "gid-2")).1.1 = "Duplicate" ∧
    (order_updated (envWith [⟨"ST.order #2040", "T2"⟩] (okFeed "hello" "v1"))
      (order_updated (envWith [msgT1] (okFeed "hello" "v1")) s0
        (some "1029") (some "gid-1")).2.1
      (some "2040") (some "gid-2")).2.2.any isPost = false ∧
    dedup_key (commentNode "hello" "v1") ∈
      (order_updated (envWith [⟨"ST.order #2040", "T2"⟩] (okFeed "hello" "v1"))
        (order_updated (envWith [msgT1] (okFeed "hello" "v1")) s0
          (some "1029") (some "gid-1")).2.1
        (some "2040") (some "gid-2")).2.1.processed :=
  dedup_global_across_orders
    (envWith [msgT1] (okFeed "hello" "v1"))
    (envWith [⟨"ST.order #2040", "T2"⟩] (okFeed "hello" "v1"))
    s0 (some "1029") (some "gid-1") (some "2040") (some "gid-2")
    (commentNode "hello" "v1") (commentNode "hello" "v1") "T2"
    (by decide) (by decide) (by decide) rfl rfl (by decide) (by decide)
    (by decide)

end CommentReply
